import Mathlib

/-!
Shallow embedding of the browser-side session guard and submission lock of
`static/js/main.js` (Certificate Verification System).

Time is measured in milliseconds as `Nat`. Browser timers scheduled with
`setTimeout` are modelled as `(id, fireTime)` pairs in a list together with a
fresh-id counter; `clearTimeout` removes the timer with a given id. The
browser event loop is single threaded: every transition is a pure function on
the state, and a run is a fold over a list of timed stimuli.
-/

/-- Idle threshold of the admin guard: `25 * 60 * 1000` milliseconds, from the
`setTimeout` delay in `resetTimer` (main.js line 155). -/
def IDLE_MS : Nat := 25 * 60 * 1000

/-- Safety auto-release delay of the submit lock: `5000` ms (main.js line 190). -/
def RELEASE_MS : Nat := 5000

/-- Client-side state of the admin session guard (main.js lines 149-172).
`timers` holds the scheduled `showTimeoutWarning` callbacks as
`(id, fireTime)` pairs; `timeoutWarning` is the JS variable of that name (the
id last returned by `setTimeout`; before the first call it is the sentinel 0,
and real ids start at 1); `requests` logs every issued `fetch` as a
`(path, method)` pair; `warningsShown` counts how many times the
`showTimeoutWarning` callback ran. -/
structure GuardState where
  now : Nat
  timers : List (Nat × Nat)
  nextId : Nat
  timeoutWarning : Nat
  warningsShown : Nat
  requests : List (String × String)
  deriving DecidableEq

/-- `clearTimeout(id)`: cancel the timer with this id, if scheduled. -/
def clearTimeout (s : GuardState) (id : Nat) : GuardState :=
  { s with timers := s.timers.filter (fun p => p.1 != id) }

/-- `timeoutWarning = setTimeout(showTimeoutWarning, delay)`: schedule a fresh
timer and store its id in the `timeoutWarning` variable. -/
def armWarning (s : GuardState) (delay : Nat) : GuardState :=
  { s with timers := s.timers ++ [(s.nextId, s.now + delay)],
           timeoutWarning := s.nextId,
           nextId := s.nextId + 1 }

/-- `resetTimer` (main.js lines 152-156): cancel the pending warning timer,
then arm a fresh one `IDLE_MS` from now. -/
def resetTimer (s : GuardState) : GuardState :=
  armWarning (clearTimeout s s.timeoutWarning) IDLE_MS

/-- `showTimeoutWarning` (main.js lines 158-164). `confirmed` is the answer to
the blocking `confirm` prompt. On OK the handler calls `resetTimer` and then
issues the keep-alive `fetch`; `_fetchOutcome` stands for the eventual network
result of that fire-and-forget request, and the handler never consults it. On
dismissal the handler body does nothing. `warningsShown` is bookkeeping for
how many times the callback ran. -/
def showTimeoutWarning (s : GuardState) (confirmed : Bool) (_fetchOutcome : Bool) :
    GuardState :=
  let s0 := { s with warningsShown := s.warningsShown + 1 }
  if confirmed then
    let s1 := resetTimer s0
    { s1 with requests := s1.requests ++ [("/admin/keep-alive", "POST")] }
  else s0

/-- A qualifying activity event (`click`, `mousemove`, `keypress`, `scroll`)
at time `t`: each of those listeners is `resetTimer` (main.js lines 167-169). -/
def activityStep (s : GuardState) (t : Nat) : GuardState :=
  resetTimer { s with now := t }

/-- The event loop firing the scheduled timer `id` at time `t`: the timer is
removed from the schedule and its callback `showTimeoutWarning` runs. -/
def fireTimer (s : GuardState) (id t : Nat) (confirmed fetchOutcome : Bool) :
    GuardState :=
  showTimeoutWarning
    { s with now := t, timers := s.timers.filter (fun p => p.1 != id) }
    confirmed fetchOutcome

/-- The timers already due at time `t`. -/
def dueTimers (s : GuardState) (t : Nat) : List (Nat × Nat) :=
  s.timers.filter (fun p => decide (p.2 ≤ t))

/-- Page-load installation of the guard: `resetTimer()` is first called at
load time (main.js line 171) with the `timeoutWarning` variable still unset
(the sentinel 0 clears nothing, since real ids start at 1). -/
def initGuard : GuardState :=
  resetTimer
    { now := 0, timers := [], nextId := 1, timeoutWarning := 0,
      warningsShown := 0, requests := [] }

/-- Guard states reachable from page load by activity events and timer
firings (a timer only fires if it is actually scheduled). -/
inductive Reachable : GuardState → Prop where
  | init : Reachable initGuard
  | activity (s : GuardState) (t : Nat) : Reachable s → Reachable (activityStep s t)
  | fire (s : GuardState) (id t : Nat) (c o : Bool) :
      Reachable s → (id, t) ∈ s.timers → Reachable (fireTimer s id t c o)

/-- The pending-timer invariant: at most one warning timer is scheduled, and
it is the one the `timeoutWarning` variable refers to. -/
def goodGuard (s : GuardState) : Prop :=
  s.timers = [] ∨ ∃ d, s.timers = [(s.timeoutWarning, d)]

/-- Fold a time-ordered list of activity events from page load. The Bool
records whether, at the arrival of every event, the pending warning deadline
was still in the future; `true` means the warning callback never became due
during the sequence (the guard never left `Armed`). -/
def runCheck (ts : List Nat) : GuardState × Bool :=
  ts.foldl (fun su t => (activityStep su.1 t, su.2 && (dueTimers su.1 t).isEmpty))
    (initGuard, true)

/-- Does `needle` occur as a contiguous substring of the second list? This is
JS `String.prototype.includes` on the underlying character lists. -/
def hasSubstring (needle : List Char) : List Char → Bool
  | [] => needle.isEmpty
  | c :: rest => List.isPrefixOf needle (c :: rest) || hasSubstring needle rest

/-- The page check of main.js line 149:
`window.location.pathname.includes('/admin/')`. -/
def adminPageCheck (pathname : String) : Bool :=
  hasSubstring "/admin/".data pathname.data

/-- From the words of the spec, for comparison with `adminPageCheck`: "the
current page path falls under an admin-restricted prefix", i.e. the path
starts with `/admin/`. -/
def specAdminScope (pathname : String) : Bool :=
  List.isPrefixOf "/admin/".data pathname.data

/-- Lines 149-172 as a whole: the guard (its four activity listeners and the
initial `resetTimer`) is installed exactly when the page check passes. -/
def installGuard (pathname : String) : Option GuardState :=
  if adminPageCheck pathname then some initGuard else none

/-- A `button[type="submit"]` control: its `disabled` property and its
`innerHTML`. -/
structure Button where
  disabled : Bool
  innerHTML : String
  deriving DecidableEq

/-- The busy-indicator markup assigned on submit (main.js line 182). -/
def SPINNER : String :=
  "<span class=\"spinner-border spinner-border-sm me-2\" role=\"status\" aria-hidden=\"true\"></span>Processing..."

/-- Body of the per-button submit listener (main.js lines 180-182), up to the
`setTimeout`: disable the button, snapshot `button.innerHTML` into
`originalText` (the order in the source is disable first, snapshot second,
overwrite third), then swap in the busy indicator. Returns the updated button
and the captured `originalText`. -/
def lockButton (b : Button) : Button × String :=
  let b1 : Button := { b with disabled := true }
  let originalText := b1.innerHTML
  ({ b1 with innerHTML := SPINNER }, originalText)

/-- The safety auto-release callback (main.js lines 185-190): if the button is
still disabled, re-enable it and restore the captured `originalText`;
otherwise do nothing. -/
def autoRelease (b : Button) (originalText : String) : Button :=
  if b.disabled then { disabled := false, innerHTML := originalText } else b

/-- One button together with its scheduled auto-release callbacks, each a
`(fireTime, capturedOriginalText)` pair in scheduling order. -/
structure LockState where
  button : Button
  pending : List (Nat × String)
  deriving DecidableEq

/-- Run every auto-release whose fire time has arrived, in scheduling order
(which is fire order, since all delays are equal and submits are processed in
time order), keeping the rest scheduled. -/
def fireDueReleases (s : LockState) (t : Nat) : LockState :=
  { button := (s.pending.filter (fun p => decide (p.1 ≤ t))).foldl
      (fun b p => autoRelease b p.2) s.button,
    pending := s.pending.filter (fun p => decide (t < p.1)) }

/-- A submit event at time `t`: the event loop first runs any auto-release
already due, then the submit listener locks the button and schedules its
release at `t + RELEASE_MS`. -/
def submitAt (s : LockState) (t : Nat) : LockState :=
  let s1 := fireDueReleases s t
  let lp := lockButton s1.button
  { button := lp.1, pending := s1.pending ++ [(t + RELEASE_MS, lp.2)] }

/-- Run all auto-release callbacks still outstanding after the last submit. -/
def flushReleases (s : LockState) : LockState :=
  { button := s.pending.foldl (fun b p => autoRelease b p.2) s.button,
    pending := [] }

/-- The whole history of one button under a time-ordered list of submit
events: page load with the button enabled and label `label0`, then the
events, then all outstanding timeouts. -/
def runSubmits (label0 : String) (ts : List Nat) : LockState :=
  flushReleases
    (ts.foldl submitAt
      { button := { disabled := false, innerHTML := label0 }, pending := [] })

/-- A form as the two submit listeners see it: whether it carries the
`needs-validation` marker class (which decides whether the validation listener
of main.js lines 22-31 was attached), what `form.checkValidity()` returns,
and the submit buttons whose `closest` form element is this form. -/
structure Form where
  needsValidation : Bool
  checkValidity : Bool
  buttons : List Button
  deriving DecidableEq

/-- Result of dispatching a `submit` event on a form. -/
structure SubmitOutcome where
  defaultPrevented : Bool
  wasValidated : Bool
  buttons : List Button
  snapshots : List String
  deriving DecidableEq

/-- Dispatch of a `submit` event on a form. Listeners run in attachment
order: the validation listener (main.js lines 24-30, attached only to
`.needs-validation` forms) runs first and calls `preventDefault` and
`stopPropagation` when the form is invalid; `stopPropagation` does not
suppress other listeners attached to the same form element, so the per-button
lock listeners (lines 179-191) always run next. Actual network activity (the
form submission) starts only after dispatch completes, and only if the
default was not prevented. -/
def dispatchSubmit (f : Form) : SubmitOutcome :=
  let prevented := f.needsValidation && !f.checkValidity
  let locked := f.buttons.map lockButton
  { defaultPrevented := prevented,
    wasValidated := f.needsValidation,
    buttons := locked.map Prod.fst,
    snapshots := locked.map Prod.snd }

theorem IDLE_MS_pos : 0 < IDLE_MS := by norm_num [IDLE_MS]

theorem resetTimer_timers (s : GuardState) (h : goodGuard s) :
    (resetTimer s).timers = [(s.nextId, s.now + IDLE_MS)] := by
  rcases h with h | ⟨d, h⟩ <;>
    simp [resetTimer, clearTimeout, armWarning, h]

theorem goodGuard_resetTimer (s : GuardState) (h : goodGuard s) :
    goodGuard (resetTimer s) := by
  refine Or.inr ⟨s.now + IDLE_MS, ?_⟩
  rw [resetTimer_timers s h]
  simp [resetTimer, clearTimeout, armWarning]

theorem goodGuard_showTimeoutWarning (s : GuardState) (c o : Bool)
    (h : goodGuard s) : goodGuard (showTimeoutWarning s c o) := by
  cases c with
  | false => simpa [showTimeoutWarning, goodGuard] using h
  | true =>
      have h0 : goodGuard ({ s with warningsShown := s.warningsShown + 1 }) := h
      have hr : goodGuard (resetTimer { s with warningsShown := s.warningsShown + 1 }) :=
        goodGuard_resetTimer _ h0
      exact hr

theorem goodGuard_fireTimer (s : GuardState) (id t : Nat) (c o : Bool)
    (h : goodGuard s) : goodGuard (fireTimer s id t c o) := by
  apply goodGuard_showTimeoutWarning
  rcases h with h | ⟨d, h⟩
  · left
    simp [h]
  · rcases eq_or_ne s.timeoutWarning id with he | he
    · left
      simp [h, he]
    · right
      exact ⟨d, by simp [h, he]⟩

theorem reachable_good (s : GuardState) (h : Reachable s) : goodGuard s := by
  induction h with
  | init => exact goodGuard_resetTimer _ (Or.inl rfl)
  | activity s t _ ih => exact goodGuard_resetTimer _ ih
  | fire s id t c o _ _ ih => exact goodGuard_fireTimer _ _ _ _ _ ih

/-- Claim C1: in the `Warning` state (the fired timer has been removed from
the schedule, so no timer is pending), confirming the prompt rearms a fresh
idle deadline `IDLE_MS` from now (back to `Armed`) and appends exactly one
`POST` to `/admin/keep-alive` to the request log; moreover the resulting
state does not depend on the eventual outcome of that fire-and-forget
request, so the rescheduling is unconditional and does not wait on it. -/
theorem confirm_rearms_and_sends_one_keepalive (s : GuardState) (o : Bool)
    (h : s.timers = []) :
    (showTimeoutWarning s true o).timers = [(s.nextId, s.now + IDLE_MS)] ∧
    (showTimeoutWarning s true o).requests
      = s.requests ++ [("/admin/keep-alive", "POST")] ∧
    ∀ o2 : Bool, showTimeoutWarning s true o2 = showTimeoutWarning s true o := by
  refine ⟨?_, ?_, fun o2 => rfl⟩
  · simp [showTimeoutWarning, resetTimer, clearTimeout, armWarning, h]
  · simp [showTimeoutWarning, resetTimer, clearTimeout, armWarning]

theorem confirm_rearms_and_sends_one_keepalive_witness :
    (showTimeoutWarning
        { now := 7, timers := [], nextId := 4, timeoutWarning := 3,
          warningsShown := 1, requests := [] } true true).timers
      = [(4, 7 + IDLE_MS)] ∧
    (showTimeoutWarning
        { now := 7, timers := [], nextId := 4, timeoutWarning := 3,
          warningsShown := 1, requests := [] } true true).requests
      = [] ++ [("/admin/keep-alive", "POST")] ∧
    ∀ o2 : Bool,
      showTimeoutWarning
          { now := 7, timers := [], nextId := 4, timeoutWarning := 3,
            warningsShown := 1, requests := [] } true o2
        = showTimeoutWarning
            { now := 7, timers := [], nextId := 4, timeoutWarning := 3,
              warningsShown := 1, requests := [] } true true :=
  confirm_rearms_and_sends_one_keepalive _ true rfl

/-- Claim C9: dismissing the warning prompt takes no further client-side
action: no request is issued, no timer is scheduled, and the `timeoutWarning`
variable, the id counter and the clock are untouched (only the bookkeeping
count of shown warnings moves). -/
theorem dismiss_takes_no_action (s : GuardState) (o : Bool) :
    (showTimeoutWarning s false o).requests = s.requests ∧
    (showTimeoutWarning s false o).timers = s.timers ∧
    (showTimeoutWarning s false o).timeoutWarning = s.timeoutWarning ∧
    (showTimeoutWarning s false o).nextId = s.nextId ∧
    (showTimeoutWarning s false o).now = s.now := by
  simp [showTimeoutWarning]

/-- Claim C3: from any reachable guard state, one reset leaves exactly one
pending timer, and a second immediate reset still leaves exactly one - every
reset cancels the stored pending timer before arming a fresh one, so resets
do not accumulate timers. -/
theorem reset_twice_one_pending (s : GuardState) (h : Reachable s) :
    (resetTimer s).timers.length = 1 ∧
    (resetTimer (resetTimer s)).timers.length = 1 := by
  have hg := reachable_good s h
  have h1 := resetTimer_timers s hg
  have h2 := resetTimer_timers _ (goodGuard_resetTimer s hg)
  exact ⟨by rw [h1]; rfl, by rw [h2]; rfl⟩

theorem reset_twice_one_pending_witness :
    (resetTimer initGuard).timers.length = 1 ∧
    (resetTimer (resetTimer initGuard)).timers.length = 1 :=
  reset_twice_one_pending initGuard Reachable.init

/-- Claim C4: after an activity event at time `t` (the guard rearmed), the
schedule holds exactly one timer, due at `t + IDLE_MS`; if no further
activity occurs, firing it at that instant shows the warning exactly once,
and afterwards no timer is due at `t + IDLE_MS` any more - there is no stale
timer that could fire the warning a second time, whatever the user answers. -/
theorem idle_threshold_warns_exactly_once (s : GuardState) (t : Nat) (c o : Bool)
    (h : goodGuard s) :
    (activityStep s t).timers = [(s.nextId, t + IDLE_MS)] ∧
    (fireTimer (activityStep s t) s.nextId (t + IDLE_MS) c o).warningsShown
      = (activityStep s t).warningsShown + 1 ∧
    dueTimers (fireTimer (activityStep s t) s.nextId (t + IDLE_MS) c o)
      (t + IDLE_MS) = [] := by
  have h1 : (activityStep s t).timers = [(s.nextId, t + IDLE_MS)] :=
    resetTimer_timers { s with now := t } h
  have hfilter : (activityStep s t).timers.filter (fun p => p.1 != s.nextId) = [] := by
    rw [h1]
    simp
  refine ⟨h1, ?_, ?_⟩
  · cases c <;>
      simp [fireTimer, showTimeoutWarning, resetTimer, clearTimeout, armWarning]
  · have hlt : ¬ (t + IDLE_MS + IDLE_MS ≤ t + IDLE_MS) := by
      have := IDLE_MS_pos
      omega
    cases c <;>
      simp [fireTimer, showTimeoutWarning, resetTimer, clearTimeout, armWarning,
        dueTimers, hfilter, hlt]

theorem idle_threshold_warns_exactly_once_witness :
    (activityStep
        { now := 0, timers := [], nextId := 1, timeoutWarning := 0,
          warningsShown := 0, requests := [] } 3).timers = [(1, 3 + IDLE_MS)] ∧
    (fireTimer
        (activityStep
          { now := 0, timers := [], nextId := 1, timeoutWarning := 0,
            warningsShown := 0, requests := [] } 3) 1 (3 + IDLE_MS) true
        true).warningsShown
      = (activityStep
          { now := 0, timers := [], nextId := 1, timeoutWarning := 0,
            warningsShown := 0, requests := [] } 3).warningsShown + 1 ∧
    dueTimers
      (fireTimer
        (activityStep
          { now := 0, timers := [], nextId := 1, timeoutWarning := 0,
            warningsShown := 0, requests := [] } 3) 1 (3 + IDLE_MS) true true)
      (3 + IDLE_MS) = [] :=
  idle_threshold_warns_exactly_once _ 3 true true (Or.inl rfl)

theorem runCheck_aux (ts : List Nat) : ∀ (s : GuardState) (L : Nat),
    s.timers = [(s.timeoutWarning, L + IDLE_MS)] →
    List.Chain' (fun a b => b < a + IDLE_MS) (L :: ts) →
    (ts.foldl (fun su t => (activityStep su.1 t, su.2 && (dueTimers su.1 t).isEmpty))
      (s, true)).2 = true := by
  induction ts with
  | nil => intro s L _ _; rfl
  | cons t rest ih =>
      intro s L hs hc
      rw [List.chain'_cons] at hc
      obtain ⟨hlt, hc2⟩ := hc
      have hnle : ¬ (L + IDLE_MS ≤ t) := by omega
      have hdue : (dueTimers s t).isEmpty = true := by
        simp [dueTimers, hs, hnle]
      have hgood : goodGuard s := Or.inr ⟨L + IDLE_MS, hs⟩
      have hs2 : (activityStep s t).timers
          = [((activityStep s t).timeoutWarning, t + IDLE_MS)] := by
        have hr := resetTimer_timers { s with now := t } hgood
        have htw : (activityStep s t).timeoutWarning = s.nextId := by
          simp [activityStep, resetTimer, clearTimeout, armWarning]
        rw [htw]
        exact hr
      simp only [List.foldl_cons, hdue, Bool.and_true]
      exact ih (activityStep s t) t hs2 hc2

/-- Claim C8: for any sequence of qualifying activity events in which the
page load and every consecutive pair of events are separated by less than the
idle threshold, at no event arrival has the pending warning deadline passed:
the warning callback never becomes due, so the guard never enters the
`Warning` state during the sequence. -/
theorem active_sequence_never_warns (ts : List Nat)
    (h : List.Chain' (fun a b => b < a + IDLE_MS) (0 :: ts)) :
    (runCheck ts).2 = true := by
  unfold runCheck
  exact runCheck_aux ts initGuard 0 rfl h

theorem active_sequence_never_warns_witness :
    (runCheck [1000, 500000, 1200000, 2000000]).2 = true :=
  active_sequence_never_warns [1000, 500000, 1200000, 2000000]
    (by norm_num [List.chain'_cons, IDLE_MS])

theorem hasSubstring_of_isPrefixOf (n h : List Char)
    (hp : List.isPrefixOf n h = true) : hasSubstring n h = true := by
  cases h with
  | nil =>
      cases n with
      | nil => rfl
      | cons c cs => simp [List.isPrefixOf] at hp
  | cons c rest => simp [hasSubstring, hp]

/-- Claim C2 (amended): on every page whose navigation path falls under the
admin-restricted path prefix, the session guard is installed; the converse
direction of the original claim fails, because the source tests substring
containment of `/admin/` rather than a prefix match. -/
theorem guard_installed_on_admin_scope (p : String)
    (h : specAdminScope p = true) : (installGuard p).isSome = true := by
  unfold specAdminScope at h
  have hc : adminPageCheck p = true :=
    hasSubstring_of_isPrefixOf "/admin/".data p.data h
  simp [installGuard, hc]

theorem guard_installed_on_admin_scope_witness :
    specAdminScope "/admin/dashboard" = true ∧
    (installGuard "/admin/dashboard").isSome = true :=
  ⟨by decide, guard_installed_on_admin_scope "/admin/dashboard" (by decide)⟩

/-- Claim C2 fails as stated: the path `/x/admin/y` does not fall under the
admin path prefix, yet the guard is installed on it, because main.js line 149
checks `pathname.includes` - substring containment - not a prefix. -/
theorem guard_installed_off_admin_scope :
    (installGuard "/x/admin/y").isSome = true ∧
    specAdminScope "/x/admin/y" = false := by
  constructor <;> decide

theorem dispatch_buttons_locked (f : Form) (b : Button)
    (hb : b ∈ (dispatchSubmit f).buttons) :
    b.disabled = true ∧ b.innerHTML = SPINNER := by
  simp only [dispatchSubmit, List.map_map] at hb
  obtain ⟨a, _, rfl⟩ := List.mem_map.mp hb
  exact ⟨rfl, rfl⟩

/-- Claim C5 (amended): on the submit event of any form containing
submit-type controls - whether or not it carries the `needs-validation`
marker class - every submit control in the form is disabled and its label
swapped for the busy indicator during dispatch, before any network activity
(which starts only after dispatch completes). The restriction of the original
claim to marker-class forms fails: the lock listeners are attached per submit
button, not per marked form. -/
theorem submit_locks_every_control (f : Form) (b : Button)
    (hb : b ∈ (dispatchSubmit f).buttons) :
    b.disabled = true ∧ b.innerHTML = SPINNER :=
  dispatch_buttons_locked f b hb

theorem submit_locks_every_control_witness :
    ({ disabled := true, innerHTML := SPINNER } : Button).disabled = true ∧
    ({ disabled := true, innerHTML := SPINNER } : Button).innerHTML = SPINNER :=
  submit_locks_every_control
    { needsValidation := true, checkValidity := true,
      buttons := [{ disabled := false, innerHTML := "Send" }] }
    { disabled := true, innerHTML := SPINNER }
    (by simp [dispatchSubmit, lockButton])

/-- Claim C5 fails as stated ("and only such forms"): a form without the
`needs-validation` marker class still gets its submit control disabled and
swapped to the busy indicator on submit. -/
theorem lock_engages_without_marker :
    (dispatchSubmit
        { needsValidation := false, checkValidity := true,
          buttons := [{ disabled := false, innerHTML := "Go" }] }).buttons
      = [{ disabled := true, innerHTML := SPINNER }] ∧
    ({ needsValidation := false, checkValidity := true,
       buttons := [{ disabled := false, innerHTML := "Go" }] } : Form).needsValidation
      = false :=
  ⟨rfl, rfl⟩

/-- Claim C6: when the safety timeout fires, a control that is still locked
(disabled) is re-enabled and its captured label is restored exactly, inner
markup included; a control that is no longer locked at that point is left
untouched. -/
theorem auto_release_restores_or_noop (b : Button) (orig : String) :
    (b.disabled = true → autoRelease b orig
      = { disabled := false, innerHTML := orig }) ∧
    (b.disabled = false → autoRelease b orig = b) := by
  constructor <;> intro h <;> simp [autoRelease, h]

theorem auto_release_restores_or_noop_witness :
    autoRelease { disabled := true, innerHTML := SPINNER } "Download"
      = { disabled := false, innerHTML := "Download" } ∧
    autoRelease { disabled := false, innerHTML := "Download" } "Download"
      = { disabled := false, innerHTML := "Download" } :=
  ⟨(auto_release_restores_or_noop _ _).1 rfl,
   (auto_release_restores_or_noop _ _).2 rfl⟩

/-- Claim C7 fails on the code: with submit events at 0 ms, 1000 ms and
5500 ms (the later ones fired, e.g., by the Enter key while the flow is in
progress), the snapshot taken at 1000 ms is the busy-indicator markup, not
the true pre-lock label, and the run ends with the button enabled but
permanently displaying the busy indicator instead of its original label. -/
theorem snapshot_corrupted_by_resubmit :
    (runSubmits "Submit" [0, 1000, 5500]).button
      = { disabled := false, innerHTML := SPINNER } ∧
    SPINNER ≠ "Submit" := by
  refine ⟨rfl, ?_⟩
  decide

/-- Claim C10: on a `needs-validation` form that fails `checkValidity`, the
submission is prevented (no network activity ever begins), yet every submit
control is still locked during dispatch - disabled and showing the busy
indicator - and the scheduled auto-releases later restore each control
re-enabled with its pre-lock label. -/
theorem invalid_submit_still_locks (f : Form)
    (h1 : f.needsValidation = true) (h2 : f.checkValidity = false) :
    (dispatchSubmit f).defaultPrevented = true ∧
    (∀ b ∈ (dispatchSubmit f).buttons, b.disabled = true ∧ b.innerHTML = SPINNER) ∧
    ((dispatchSubmit f).buttons.zip (dispatchSubmit f).snapshots).map
        (fun p => autoRelease p.1 p.2)
      = f.buttons.map (fun b => { disabled := false, innerHTML := b.innerHTML }) := by
  refine ⟨by simp [dispatchSubmit, h1, h2], fun b hb => dispatch_buttons_locked f b hb, ?_⟩
  simp only [dispatchSubmit, List.map_map, List.zip_map']
  rfl

theorem invalid_submit_still_locks_witness :
    (dispatchSubmit
        { needsValidation := true, checkValidity := false,
          buttons := [{ disabled := false, innerHTML := "Upload" }] }).defaultPrevented
      = true ∧
    (∀ b ∈ (dispatchSubmit
        { needsValidation := true, checkValidity := false,
          buttons := [{ disabled := false, innerHTML := "Upload" }] }).buttons,
      b.disabled = true ∧ b.innerHTML = SPINNER) ∧
    ((dispatchSubmit
        { needsValidation := true, checkValidity := false,
          buttons := [{ disabled := false, innerHTML := "Upload" }] }).buttons.zip
      (dispatchSubmit
        { needsValidation := true, checkValidity := false,
          buttons := [{ disabled := false, innerHTML := "Upload" }] }).snapshots).map
        (fun p => autoRelease p.1 p.2)
      = ({ needsValidation := true, checkValidity := false,
           buttons := [{ disabled := false, innerHTML := "Upload" }] } : Form).buttons.map
          (fun b => { disabled := false, innerHTML := b.innerHTML }) :=
  invalid_submit_still_locks
    { needsValidation := true, checkValidity := false,
      buttons := [{ disabled := false, innerHTML := "Upload" }] } rfl rfl
